import Mathlib

/-!
Shallow embedding of `src/dfcx_scrapi/builders/intent.py`.

The Python module assembles `google.cloud.dialogflowcx` Intent proto objects.
We model the proto messages as Lean structures, the builder's `proto_obj`
slot as an `Option Intent` (with `none` meaning the attribute was never
assigned, so that accessing it raises `AttributeError`), Python dictionaries
as insertion-ordered association lists, and Python exceptions as an error
type returned through `Except`.  Each builder method becomes a function from
the builder state (and its mutable list arguments) to the raised-or-returned
value together with the state after the call.
-/

namespace Dfcx

/-- One contiguous span of a training phrase, optionally annotated with a
parameter id (empty string means unannotated).  Models
`types.Intent.TrainingPhrase.Part`. -/
structure Part where
  text : String
  parameter_id : String
deriving Repr, DecidableEq

/-- One example utterance, decomposed into ordered parts.  Models
`types.Intent.TrainingPhrase`. -/
structure TrainingPhrase where
  parts : List Part
  repeat_count : Int
deriving Repr, DecidableEq

/-- A named, typed slot the intent can extract.  Models
`types.Intent.Parameter`. -/
structure Parameter where
  id : String
  entity_type : String
  is_list : Bool
  redact : Bool
deriving Repr, DecidableEq

/-- The Intent proto object.  `labels` is a Python dict modelled as an
insertion-ordered association list.  Proto3 scalar fields default to the
empty string, `0` and `false`; `description=None` is stored as `""`. -/
structure Intent where
  display_name : String
  priority : Int
  is_fallback : Bool
  description : String
  training_phrases : List TrainingPhrase
  parameters : List Parameter
  labels : List (String × String)
deriving Repr, DecidableEq

/-- The all-default Intent, as produced by `types.Intent()`. -/
def defaultIntent : Intent :=
  ⟨"", 0, false, "", [], [], []⟩

/-- Python truthiness of a proto-plus message: falsy exactly when every
field holds its default value. -/
def Intent.falsy (i : Intent) : Bool :=
  i.display_name == "" && i.priority == 0 && i.is_fallback == false &&
    i.description == "" && i.training_phrases.isEmpty &&
    i.parameters.isEmpty && i.labels.isEmpty

/-- The builder's `proto_obj` slot.  `none` models a fresh `IntentBuilder()`
whose `__init__` body is `pass`, so the attribute does not exist at all. -/
abbrev Builder := Option Intent

/-- Python exceptions raised by the module.  A fresh builder has no
`proto_obj` attribute, so reading it raises `AttributeError` (no payload
modelled). -/
inductive PyError where
  | attributeError
  | valueError (msg : String)
  | indexError (msg : String)
  | typeError (msg : String)
  | keyError (msg : String)
  | exception (msg : String)
deriving Repr, DecidableEq

/-- The message of the ValueError raised by `_check_intent_exist`. -/
def noProtoObjMsg : String :=
  "There is no proto_obj! Create or load one to continue."

/-- `IntentBuilder._check_intent_exist`: evaluating `self.proto_obj` raises
`AttributeError` when the attribute was never assigned; otherwise
`if not self.proto_obj` raises the ValueError when the owned object is
falsy.  On success we hand back the checked object. -/
def check_intent_exist (b : Builder) : Except PyError Intent :=
  match b with
  | none => .error .attributeError
  | some i =>
      if i.falsy then .error (.valueError noProtoObjMsg)
      else .ok i

/-- `IntentBuilder.load_intent`: adopt an externally built Intent (no copy)
and return it. -/
def load_intent (_b : Builder) (obj : Intent) : Intent × Builder :=
  (obj, some obj)

/-- `IntentBuilder.create_empty_intent`: build a fresh Intent from the given
fields (collections empty) and replace any previously owned object. -/
def create_empty_intent (_b : Builder) (display_name : String) (priority : Int)
    (is_fallback : Bool) (description : Option String) : Intent × Builder :=
  let i : Intent :=
    { display_name := display_name
      priority := priority
      is_fallback := is_fallback
      description := description.getD ""
      training_phrases := []
      parameters := []
      labels := [] }
  (i, some i)

/-- The message of the IndexError raised when `annotations` is longer than
`phrase`. -/
def lengthErrMsg : String :=
  "Length of annotations list is more than phrase list!"

/-- `IntentBuilder.add_training_phrase`.  The Lean types make the
`isinstance(..., str)` element checks of the source vacuously true.  The
caller's `phrase` and `annotations` lists are mutable in Python, so the
state after the call includes both: the source never touches `phrase`, and
right-pads `annotations` in place with empty strings (after the length
check, so the error branches leave it untouched). -/
def add_training_phrase (b : Builder) (phrase : List String)
    (annotations : List String) (repeat_count : Int) :
    Except PyError Intent × Builder × List String × List String :=
  match check_intent_exist b with
  | .error e => (.error e, b, phrase, annotations)
  | .ok i =>
      if annotations.length > phrase.length then
        (.error (.indexError lengthErrMsg), b, phrase, annotations)
      else
        let annotations2 :=
          annotations ++ List.replicate (phrase.length - annotations.length) ""
        let parts_list :=
          (phrase.zip annotations2).map (fun p => Part.mk p.1 p.2)
        let tp : TrainingPhrase :=
          { parts := parts_list, repeat_count := repeat_count }
        let i2 : Intent :=
          { i with training_phrases := i.training_phrases ++ [tp] }
        (.ok i2, some i2, phrase, annotations2)

/-- `IntentBuilder.add_parameter`: append one Parameter built from the
arguments, with no uniqueness check. -/
def add_parameter (b : Builder) (parameter_id : String) (entity_type : String)
    (is_list : Bool) (redact : Bool) : Except PyError Intent × Builder :=
  match check_intent_exist b with
  | .error e => (.error e, b)
  | .ok i =>
      let param : Parameter :=
        { id := parameter_id
          entity_type := entity_type
          is_list := is_list
          redact := redact }
      let i2 : Intent := { i with parameters := i.parameters ++ [param] }
      (.ok i2, some i2)

/-- Setting one key of a Python dict: overwrite the value in place if the
key exists (keeping its position), otherwise append the pair. -/
def pyDictSet (d : List (String × String)) (k v : String) :
    List (String × String) :=
  if d.any (fun p => p.1 == k) then
    d.map (fun p => if p.1 == k then (k, v) else p)
  else
    d ++ [(k, v)]

/-- Python `dict.update`: set every key of `other` in order. -/
def pyDictUpdate (d other : List (String × String)) :
    List (String × String) :=
  other.foldl (fun acc p => pyDictSet acc p.1 p.2) d

/-- The dict comprehension of `add_label` over a list argument:
each element becomes both key and value. -/
def selfDict (l : List String) : List (String × String) :=
  l.foldl (fun acc s => pyDictSet acc s s) []

/-- The duck-typed argument of `add_label`: a dict, a Python list, or some
other value (split by truthiness, which is all the source inspects about
other types before raising). -/
inductive LabelsArg where
  | dict (d : List (String × String))
  | list (l : List String)
  | otherFalsy
  | otherTruthy
deriving Repr, DecidableEq

/-- Python truthiness of the `labels` argument. -/
def LabelsArg.falsy : LabelsArg → Bool
  | .dict d => d.isEmpty
  | .list l => l.isEmpty
  | .otherFalsy => true
  | .otherTruthy => false

/-- Message of the ValueError raised by `add_label` on a bad type. -/
def badLabelsMsg : String :=
  "labels should be either a list or a dictionary."

/-- `IntentBuilder.add_label`: no-op on a falsy argument, merge of the
self-dict for a list, direct merge for a dict, ValueError otherwise. -/
def add_label (b : Builder) (labels : LabelsArg) :
    Except PyError Intent × Builder :=
  match check_intent_exist b with
  | .error e => (.error e, b)
  | .ok i =>
      if labels.falsy then (.ok i, some i)
      else
        match labels with
        | .list l =>
            let i2 : Intent := { i with labels := pyDictUpdate i.labels (selfDict l) }
            (.ok i2, some i2)
        | .dict d =>
            let i2 : Intent := { i with labels := pyDictUpdate i.labels d }
            (.ok i2, some i2)
        | _ => (.error (.valueError badLabelsMsg), some i)

/-- The dangling-reference message raised by `_parameter_checking` (the two
adjacent Python string literals concatenate without a space). -/
def danglingMsg (parameter_id : String) : String :=
  "parameter_id " ++ parameter_id ++ " does not exist in parameters." ++
    "Please add it using add_parameter method to continue."

/-- The parameter ids collected from all parts of all training phrases, in
first-insertion order with duplicates dropped (the Python `set` inserts). -/
def collect_tp_params (i : Intent) : List String :=
  ((i.training_phrases.map TrainingPhrase.parts).flatten.map
    Part.parameter_id).dedup

/-- `IntentBuilder._parameter_checking`: gather the annotated parameter ids,
drop the empty string, and raise on the first collected id that is not the
id of a declared Parameter. -/
def parameter_checking (b : Builder) : Except PyError Unit :=
  match b with
  | none => .error .attributeError
  | some i =>
      let tp_params := (collect_tp_params i).filter (fun p => p != "")
      let param_ids := i.parameters.map Parameter.id
      match tp_params.find? (fun p => !(param_ids.contains p)) with
      | some missing => .error (.exception (danglingMsg missing))
      | none => .ok ()

/-- Declarative reading of "some Part references id `r`" (non-empty ids
only), independent of `parameter_checking`. -/
def referencesParam (i : Intent) (r : String) : Prop :=
  r ≠ "" ∧ ∃ tp ∈ i.training_phrases, ∃ p ∈ tp.parts, p.parameter_id = r

/-- Declarative reading of "the Intent declares a Parameter with id `r`". -/
def declaresParam (i : Intent) (r : String) : Prop :=
  ∃ param ∈ i.parameters, param.id = r

/-- Row of the `phrases` argument of module-level `build_intent`: either a
mapping (what the body needs) or a plain string (what the annotation
`List[str]` promises). -/
inductive PhraseRow where
  | mapping (d : List (String × String))
  | str (s : String)
deriving Repr, DecidableEq

/-- Python `d[k]` lookup on an association-list dict. -/
def pyLookup (d : List (String × String)) (k : String) : Option String :=
  (d.find? (fun p => p.1 == k)).map Prod.snd

/-- Evaluating `row["text"]`: a KeyError on a mapping without the key, a
TypeError on a string. -/
def rowTextItem : PhraseRow → Except PyError String
  | .mapping d =>
      match pyLookup d "text" with
      | some v => .ok v
      | none => .error (.keyError "text")
  | .str _ => .error (.typeError "string indices must be integers")

/-- The dict comprehension of `build_intent`: every iteration assigns the
single key "text", so later rows overwrite earlier ones. -/
def buildTps : List PhraseRow → List (String × String) →
    Except PyError (List (String × String))
  | [], acc => .ok acc
  | row :: rest, acc =>
      match rowTextItem row with
      | .error e => .error e
      | .ok t => buildTps rest (pyDictSet acc "text" t)

/-- The dict returned by `build_intent`. -/
structure BuiltIntent where
  display_name : String
  training_phrases : List (String × String)
deriving Repr, DecidableEq

/-- Module-level `build_intent`. -/
def build_intent (display_name : String) (phrases : List PhraseRow) :
    Except PyError BuiltIntent :=
  match buildTps phrases [] with
  | .error e => .error e
  | .ok tps => .ok { display_name := display_name, training_phrases := tps }

/-- A concrete non-falsy Intent used by the example instantiations. -/
def sampleIntent : Intent :=
  (create_empty_intent none "sample" 500000 false none).1

/-- Builder state after creating an intent and adding one training phrase
whose second part is annotated with parameter_id "city" while no Parameter
is declared. -/
def cityBuilder : Builder :=
  (add_training_phrase (create_empty_intent none "city_example" 500000 false none).2
    ["go to ", "Paris"] ["", "city"] 1).2.1

/-- The same builder after declaring the "city" parameter. -/
def cityBuilderFixed : Builder :=
  (add_parameter cityBuilder "city" "@sys.geo-city" false false).2

/-- A concrete Intent that already declares a "city" Parameter, used to show
that `add_parameter` happily appends a duplicate. -/
def dupBase : Intent :=
  { display_name := "dup"
    priority := 500000
    is_fallback := false
    description := ""
    training_phrases := []
    parameters := [⟨"city", "@sys.geo-city", false, false⟩]
    labels := [] }

/-- Claim C5: `create_empty_intent` produces, and makes the builder own, an
Intent with empty training_phrases, parameters and labels whose scalar fields
equal the arguments verbatim; the result is independent of the previous
builder state, so repeated calls discard everything accumulated before. -/
theorem create_empty_intent_fresh (b b2 : Builder) (display_name : String)
    (priority : Int) (is_fallback : Bool) (description : String) :
    create_empty_intent b display_name priority is_fallback (some description) =
      (⟨display_name, priority, is_fallback, description, [], [], []⟩,
       some ⟨display_name, priority, is_fallback, description, [], [], []⟩) ∧
    create_empty_intent b display_name priority is_fallback (some description) =
      create_empty_intent b2 display_name priority is_fallback (some description) := by
  exact ⟨rfl, rfl⟩

/-- Claim C2 (code bug in the source): on a fresh builder whose `proto_obj`
attribute was never assigned (`__init__` is `pass`), the mutating methods
raise `AttributeError`, not the missing-resource ValueError the spec (and the
error message in `_check_intent_exist` itself) promises. -/
theorem fresh_builder_attribute_error :
    add_training_phrase none ["hi"] [] 1 =
      (.error .attributeError, none, ["hi"], []) ∧
    add_parameter none "city" "@sys.geo-city" false false =
      (.error .attributeError, none) ∧
    add_label none (.list ["vip"]) = (.error .attributeError, none) ∧
    PyError.attributeError ≠ PyError.valueError noProtoObjMsg := by
  refine ⟨rfl, rfl, rfl, by decide⟩

/-- Claim C9: the presence check tests truthiness of the slot, so after
`load_intent` with a falsy (all-default) Intent, every mutating method raises
the missing-resource ValueError even though an Intent is owned. -/
theorem falsy_loaded_intent_rejected (b : Builder) (i : Intent)
    (phrase annotations : List String) (repeat_count : Int)
    (parameter_id entity_type : String) (is_list redact : Bool)
    (labels : LabelsArg) (hfalsy : i.falsy = true) :
    load_intent b i = (i, some i) ∧
    add_training_phrase (some i) phrase annotations repeat_count =
      (.error (.valueError noProtoObjMsg), some i, phrase, annotations) ∧
    add_parameter (some i) parameter_id entity_type is_list redact =
      (.error (.valueError noProtoObjMsg), some i) ∧
    add_label (some i) labels = (.error (.valueError noProtoObjMsg), some i) := by
  refine ⟨rfl, ?_, ?_, ?_⟩ <;>
    simp [add_training_phrase, add_parameter, add_label, check_intent_exist,
      hfalsy]

/-- Witness for C9 at the all-default Intent. -/
theorem falsy_loaded_intent_rejected_witness :
    defaultIntent.falsy = true ∧
    (load_intent none defaultIntent = (defaultIntent, some defaultIntent) ∧
    add_training_phrase (some defaultIntent) ["hi"] [] 1 =
      (.error (.valueError noProtoObjMsg), some defaultIntent, ["hi"], []) ∧
    add_parameter (some defaultIntent) "p" "@sys.any" false false =
      (.error (.valueError noProtoObjMsg), some defaultIntent) ∧
    add_label (some defaultIntent) (.list ["x"]) =
      (.error (.valueError noProtoObjMsg), some defaultIntent)) :=
  ⟨rfl, falsy_loaded_intent_rejected none defaultIntent ["hi"] [] 1 "p"
    "@sys.any" false false (.list ["x"]) rfl⟩

/-- Claim C4: when `annotations` is strictly longer than `phrase`,
`add_training_phrase` raises the IndexError and leaves the owned Intent, the
builder and both caller-supplied lists exactly as they were. -/
theorem add_training_phrase_length_error (i : Intent)
    (phrase annotations : List String) (repeat_count : Int)
    (hown : i.falsy = false) (hlen : phrase.length < annotations.length) :
    add_training_phrase (some i) phrase annotations repeat_count =
      (.error (.indexError lengthErrMsg), some i, phrase, annotations) := by
  simp [add_training_phrase, check_intent_exist, hown, hlen]

/-- Witness for C4. -/
theorem add_training_phrase_length_error_witness :
    sampleIntent.falsy = false ∧ [("a" : String)].length < ["x", "y"].length ∧
    add_training_phrase (some sampleIntent) ["a"] ["x", "y"] 1 =
      (.error (.indexError lengthErrMsg), some sampleIntent, ["a"], ["x", "y"]) :=
  ⟨rfl, by decide,
    add_training_phrase_length_error sampleIntent ["a"] ["x", "y"] 1 rfl
      (by decide)⟩

/-- Claim C8: `add_parameter` always appends exactly one Parameter built from
its arguments to the end of the owned parameters — with no uniqueness check,
so a duplicate id accumulates — leaves every other field unchanged, and
returns the owned Intent. -/
theorem add_parameter_appends (i : Intent) (parameter_id entity_type : String)
    (is_list redact : Bool) (hown : i.falsy = false) :
    add_parameter (some i) parameter_id entity_type is_list redact =
      (.ok { i with parameters :=
          i.parameters ++ [⟨parameter_id, entity_type, is_list, redact⟩] },
       some { i with parameters :=
          i.parameters ++ [⟨parameter_id, entity_type, is_list, redact⟩] }) := by
  simp [add_parameter, check_intent_exist, hown]

/-- Witness for C8: appending a Parameter whose id duplicates an already
declared one succeeds and accumulates both. -/
theorem add_parameter_appends_witness :
    dupBase.falsy = false ∧
    add_parameter (some dupBase) "city" "@sys.geo-city" false false =
      (.ok { dupBase with parameters :=
          [⟨"city", "@sys.geo-city", false, false⟩,
           ⟨"city", "@sys.geo-city", false, false⟩] },
       some { dupBase with parameters :=
          [⟨"city", "@sys.geo-city", false, false⟩,
           ⟨"city", "@sys.geo-city", false, false⟩] }) :=
  ⟨rfl, add_parameter_appends dupBase "city" "@sys.geo-city" false false rfl⟩

/-- Claim C6: on an owned Intent, `add_label` is a no-op for any falsy
argument, merges the self-dict of a non-empty string list, merges a non-empty
dict directly (later calls overwrite earlier keys, as the concrete chain
shows), raises ValueError on any other truthy argument, and returns the owned
Intent in every non-raising case. -/
theorem add_label_cases (i : Intent) (l : List String)
    (d : List (String × String)) (hown : i.falsy = false) :
    add_label (some i) (.dict []) = (.ok i, some i) ∧
    add_label (some i) (.list []) = (.ok i, some i) ∧
    add_label (some i) .otherFalsy = (.ok i, some i) ∧
    (l ≠ [] →
      add_label (some i) (.list l) =
        (.ok { i with labels := pyDictUpdate i.labels (selfDict l) },
         some { i with labels := pyDictUpdate i.labels (selfDict l) })) ∧
    (d ≠ [] →
      add_label (some i) (.dict d) =
        (.ok { i with labels := pyDictUpdate i.labels d },
         some { i with labels := pyDictUpdate i.labels d })) ∧
    add_label (some i) .otherTruthy =
      (.error (.valueError badLabelsMsg), some i) ∧
    (add_label (add_label (some sampleIntent) (.dict [("a", "1")])).2
        (.dict [("a", "2")])).2 =
      some { sampleIntent with labels := [("a", "2")] } := by
  refine ⟨?_, ?_, ?_, ?_, ?_, ?_, ?_⟩
  · simp [add_label, check_intent_exist, hown, LabelsArg.falsy]
  · simp [add_label, check_intent_exist, hown, LabelsArg.falsy]
  · simp [add_label, check_intent_exist, hown, LabelsArg.falsy]
  · intro hl
    cases l with
    | nil => exact absurd rfl hl
    | cons x xs => simp [add_label, check_intent_exist, hown, LabelsArg.falsy]
  · intro hd
    cases d with
    | nil => exact absurd rfl hd
    | cons x xs => simp [add_label, check_intent_exist, hown, LabelsArg.falsy]
  · simp [add_label, check_intent_exist, hown, LabelsArg.falsy]
  · rfl

/-- Witness for C6: the spec examples, with the merged dictionaries fully
evaluated. -/
theorem add_label_cases_witness :
    sampleIntent.falsy = false ∧ (["vip", "urgent"] : List String) ≠ [] ∧
    ([("a", "1")] : List (String × String)) ≠ [] ∧
    add_label (some sampleIntent) (.list ["vip", "urgent"]) =
      (.ok { sampleIntent with labels := [("vip", "vip"), ("urgent", "urgent")] },
       some { sampleIntent with labels := [("vip", "vip"), ("urgent", "urgent")] }) ∧
    add_label (some sampleIntent) (.dict [("a", "1")]) =
      (.ok { sampleIntent with labels := [("a", "1")] },
       some { sampleIntent with labels := [("a", "1")] }) := by
  refine ⟨rfl, by decide, by decide, ?_, ?_⟩
  · rw [(add_label_cases sampleIntent ["vip", "urgent"] [("a", "1")]
      rfl).2.2.2.1 (by decide)]
    rfl
  · rw [(add_label_cases sampleIntent ["vip", "urgent"] [("a", "1")]
      rfl).2.2.2.2.1 (by decide)]
    rfl

/-- Claim C7: a successful `add_training_phrase` call with `annotations`
strictly shorter than `phrase` mutates the caller's annotations list in
place: afterwards it equals the original right-padded with empty strings to
exactly the length of `phrase`, and the phrase list is untouched. -/
theorem add_training_phrase_pads_in_place (i : Intent)
    (phrase annotations : List String) (repeat_count : Int)
    (hown : i.falsy = false) (hlen : annotations.length < phrase.length) :
    (∃ i2, (add_training_phrase (some i) phrase annotations repeat_count).1 =
      .ok i2) ∧
    (add_training_phrase (some i) phrase annotations repeat_count).2.2.1 =
      phrase ∧
    (add_training_phrase (some i) phrase annotations repeat_count).2.2.2 =
      annotations ++ List.replicate (phrase.length - annotations.length) "" ∧
    ((add_training_phrase (some i) phrase annotations repeat_count).2.2.2).length =
      phrase.length := by
  have hnot : ¬ annotations.length > phrase.length := Nat.not_lt.mpr hlen.le
  refine ⟨⟨{ i with training_phrases := i.training_phrases ++
      [⟨(phrase.zip (annotations ++
            List.replicate (phrase.length - annotations.length) "")).map
          (fun p => Part.mk p.1 p.2), repeat_count⟩] }, ?_⟩, ?_, ?_, ?_⟩ <;>
    simp [add_training_phrase, check_intent_exist, hown, hnot]
  omega

/-- Witness for C7. -/
theorem add_training_phrase_pads_in_place_witness :
    sampleIntent.falsy = false ∧
    (["x"] : List String).length < ["a", "b", "c"].length ∧
    ((∃ i2, (add_training_phrase (some sampleIntent) ["a", "b", "c"] ["x"] 1).1 =
      .ok i2) ∧
    (add_training_phrase (some sampleIntent) ["a", "b", "c"] ["x"] 1).2.2.1 =
      ["a", "b", "c"] ∧
    (add_training_phrase (some sampleIntent) ["a", "b", "c"] ["x"] 1).2.2.2 =
      ["x"] ++ List.replicate (["a", "b", "c"].length - ["x"].length) "" ∧
    ((add_training_phrase (some sampleIntent) ["a", "b", "c"] ["x"] 1).2.2.2).length =
      ["a", "b", "c"].length) :=
  ⟨rfl, by decide,
    add_training_phrase_pads_in_place sampleIntent ["a", "b", "c"] ["x"] 1 rfl
      (by decide)⟩

/-- Claim C1: on an owned Intent, with `annotations` no longer than `phrase`,
`add_training_phrase` builds one Part per (text, parameter_id) pair in order —
pairing `phrase[j]` with `annotations[j]` and using the empty string where
`annotations` is shorter — wraps them in a new TrainingPhrase with the given
repeat_count, appends it to the end of the owned training_phrases leaving all
earlier ones unchanged, and returns the owned Intent. -/
theorem add_training_phrase_builds_parts (i : Intent)
    (phrase annotations : List String) (repeat_count : Int)
    (hown : i.falsy = false) (hlen : annotations.length ≤ phrase.length) :
    ∃ tp : TrainingPhrase,
      add_training_phrase (some i) phrase annotations repeat_count =
        (.ok { i with training_phrases := i.training_phrases ++ [tp] },
         some { i with training_phrases := i.training_phrases ++ [tp] },
         phrase,
         annotations ++ List.replicate (phrase.length - annotations.length) "") ∧
      tp.repeat_count = repeat_count ∧
      tp.parts.length = phrase.length ∧
      ∀ j : Nat, j < phrase.length →
        tp.parts[j]? =
          some (Part.mk (phrase[j]?.getD "")
            (if j < annotations.length then annotations[j]?.getD "" else "")) := by
  have hnot : ¬ annotations.length > phrase.length := Nat.not_lt.mpr hlen
  have hpadlen :
      (annotations ++ List.replicate (phrase.length - annotations.length) "").length =
        phrase.length := by
    simp only [List.length_append, List.length_replicate]
    omega
  refine ⟨⟨(phrase.zip (annotations ++
      List.replicate (phrase.length - annotations.length) "")).map
        (fun p => Part.mk p.1 p.2), repeat_count⟩, ?_, rfl, ?_, ?_⟩
  · simp [add_training_phrase, check_intent_exist, hown, hnot]
  · simp [List.length_zip, hpadlen]
  · intro j hj
    have hjp :
        j < (annotations ++
          List.replicate (phrase.length - annotations.length) "").length := by
      rw [hpadlen]
      exact hj
    have hz : (phrase.zip (annotations ++
        List.replicate (phrase.length - annotations.length) ""))[j]? =
          some (phrase[j],
            (annotations ++ List.replicate (phrase.length - annotations.length) "")[j]) :=
      List.getElem?_zip_eq_some.mpr
        ⟨List.getElem?_eq_getElem hj, List.getElem?_eq_getElem hjp⟩
    have hpj : (annotations ++
        List.replicate (phrase.length - annotations.length) "")[j] =
          (if j < annotations.length then annotations[j]?.getD "" else "") := by
      apply Option.some.inj
      rw [← List.getElem?_eq_getElem hjp]
      by_cases hja : j < annotations.length
      · rw [if_pos hja, List.getElem?_append_left hja,
          List.getElem?_eq_getElem hja]
        rfl
      · rw [if_neg hja, List.getElem?_append_right (Nat.le_of_not_lt hja),
          List.getElem?_replicate_of_lt (by omega)]
    simp only [List.getElem?_map, hz, Option.map_some, hpj,
      List.getElem?_eq_getElem hj]
    rfl

/-- Witness for C1: the spec example, phrase=["a","b","c"],
annotations=["x"], repeat_count=1. -/
theorem add_training_phrase_builds_parts_witness :
    sampleIntent.falsy = false ∧
    (["x"] : List String).length ≤ ["a", "b", "c"].length ∧
    ∃ tp : TrainingPhrase,
      add_training_phrase (some sampleIntent) ["a", "b", "c"] ["x"] 1 =
        (.ok { sampleIntent with training_phrases :=
            sampleIntent.training_phrases ++ [tp] },
         some { sampleIntent with training_phrases :=
            sampleIntent.training_phrases ++ [tp] },
         ["a", "b", "c"],
         ["x"] ++ List.replicate (["a", "b", "c"].length - ["x"].length) "") ∧
      tp.repeat_count = 1 ∧
      tp.parts.length = ["a", "b", "c"].length ∧
      ∀ j : Nat, j < ["a", "b", "c"].length →
        tp.parts[j]? =
          some (Part.mk ((["a", "b", "c"] : List String)[j]?.getD "")
            (if j < (["x"] : List String).length
              then (["x"] : List String)[j]?.getD "" else "")) :=
  ⟨rfl, by decide,
    add_training_phrase_builds_parts sampleIntent ["a", "b", "c"] ["x"] 1 rfl
      (by decide)⟩

/-- Reduction of `parameter_checking` on a present slot, with the collected
and declared sets spelled out. -/
theorem parameter_checking_some_eq (i : Intent) :
    parameter_checking (some i) =
      match ((collect_tp_params i).filter (fun p => p != "")).find?
          (fun p => !((i.parameters.map Parameter.id).contains p)) with
      | some missing => .error (.exception (danglingMsg missing))
      | none => .ok () := rfl

/-- Membership in the collected annotated-parameter list coincides with the
declarative reading over the training phrases. -/
theorem mem_collect_tp_params (i : Intent) (r : String) :
    r ∈ collect_tp_params i ↔
      ∃ tp ∈ i.training_phrases, ∃ p ∈ tp.parts, p.parameter_id = r := by
  simp only [collect_tp_params, List.mem_dedup, List.mem_map,
    List.mem_flatten]
  constructor
  · rintro ⟨part, ⟨pl, ⟨tp, htp, htpp⟩, hppl⟩, hpid⟩
    exact ⟨tp, htp, part, htpp ▸ hppl, hpid⟩
  · rintro ⟨tp, htp, part, hpart, hpid⟩
    exact ⟨part, ⟨tp.parts, ⟨tp, htp, rfl⟩, hpart⟩, hpid⟩

/-- Claim C3: the cross-reference validator raises a dangling-reference error
identifying a missing id exactly when some non-empty parameter_id referenced
by a Part across the training phrases is not the id of any declared
Parameter, and completes without error otherwise.  In particular it rejects
the builder holding one Part annotated "city" with no declared Parameters,
and accepts it again once the "city" Parameter is added. -/
theorem parameter_checking_dangling_iff (i : Intent) :
    ((∃ m, referencesParam i m ∧ ¬ declaresParam i m ∧
        parameter_checking (some i) = .error (.exception (danglingMsg m))) ∨
      ((∀ r, referencesParam i r → declaresParam i r) ∧
        parameter_checking (some i) = .ok ())) ∧
    parameter_checking cityBuilder = .error (.exception (danglingMsg "city")) ∧
    parameter_checking cityBuilderFixed = .ok () := by
  refine ⟨?_, rfl, rfl⟩
  cases hfind : ((collect_tp_params i).filter (fun p => p != "")).find?
      (fun p => !((i.parameters.map Parameter.id).contains p)) with
  | some m =>
    left
    have hmem := List.mem_of_find?_eq_some hfind
    have hpred := List.find?_some hfind
    rw [List.mem_filter] at hmem
    obtain ⟨hmemd, hmne⟩ := hmem
    have hnc : ¬ m ∈ i.parameters.map Parameter.id := by
      simpa using hpred
    refine ⟨m, ⟨by simpa using hmne, (mem_collect_tp_params i m).mp hmemd⟩,
      ?_, ?_⟩
    · rintro ⟨param, hparam, hpidm⟩
      exact hnc (List.mem_map.mpr ⟨param, hparam, hpidm⟩)
    · rw [parameter_checking_some_eq, hfind]
  | none =>
    right
    have hall := List.find?_eq_none.mp hfind
    refine ⟨?_, by rw [parameter_checking_some_eq, hfind]⟩
    rintro r ⟨hrne, tp, htp, part, hpart, hpid⟩
    have hrmem : r ∈ (collect_tp_params i).filter (fun p => p != "") := by
      rw [List.mem_filter]
      exact ⟨(mem_collect_tp_params i r).mpr ⟨tp, htp, part, hpart, hpid⟩,
        by simpa using hrne⟩
    have hcont : r ∈ i.parameters.map Parameter.id := by
      simpa using hall r hrmem
    obtain ⟨param, hparam, hpidm⟩ := List.mem_map.mp hcont
    exact ⟨param, hparam, hpidm⟩

/-- One step of the comprehension on a mapping row that has a "text" key. -/
theorem buildTps_cons_mapping (d : List (String × String))
    (rest : List PhraseRow) (acc : List (String × String)) (t : String)
    (h : pyLookup d "text" = some t) :
    buildTps (PhraseRow.mapping d :: rest) acc =
      buildTps rest (pyDictSet acc "text" t) := by
  simp [buildTps, rowTextItem, h]

/-- The accumulator of the `build_intent` dict comprehension holds at most
the single key "text", so each mapping row overwrites the previous value and
the last row wins. -/
theorem buildTps_go : ∀ (ds : List (List (String × String)))
    (acc : List (String × String)),
    (∀ d ∈ ds, (pyLookup d "text").isSome) →
    (acc = [] ∨ ∃ u, acc = [("text", u)]) →
    ds ≠ [] →
    ∃ dlast t, ds.getLast? = some dlast ∧ pyLookup dlast "text" = some t ∧
      buildTps (ds.map PhraseRow.mapping) acc = .ok [("text", t)]
  | [], _, _, _, hne => absurd rfl hne
  | [d], acc, hkey, hacc, _ => by
      obtain ⟨t1, ht1⟩ := Option.isSome_iff_exists.mp (hkey d (by simp))
      have hset : pyDictSet acc "text" t1 = [("text", t1)] := by
        rcases hacc with h | ⟨u, h⟩ <;> subst h <;> simp [pyDictSet]
      exact ⟨d, t1, rfl, ht1, by simp [buildTps, rowTextItem, ht1, hset]⟩
  | d :: d2 :: rest, acc, hkey, hacc, _ => by
      obtain ⟨t1, ht1⟩ := Option.isSome_iff_exists.mp (hkey d (by simp))
      have hset : pyDictSet acc "text" t1 = [("text", t1)] := by
        rcases hacc with h | ⟨u, h⟩ <;> subst h <;> simp [pyDictSet]
      obtain ⟨dlast, t, hl, hp, hrun⟩ := buildTps_go (d2 :: rest) [("text", t1)]
        (fun d3 hd3 => hkey d3 (List.mem_cons_of_mem d hd3))
        (Or.inr ⟨t1, rfl⟩) (by simp)
      refine ⟨dlast, t, ?_, hp, ?_⟩
      · rw [List.getLast?_cons_cons]
        exact hl
      · rw [List.map_cons, buildTps_cons_mapping _ _ _ _ ht1, hset, hrun]

/-- Claim C10: for a non-empty list of mappings that each contain a "text"
key, `build_intent` returns a dict keeping only the last row's "text" value
(the comprehension builds a single-key dict, discarding earlier rows), and
for a non-empty list of plain strings — what the `List[str]` annotation
promises — it raises a TypeError instead of returning. -/
theorem build_intent_last_text_wins (dn : String)
    (ds : List (List (String × String))) (ts : List String)
    (hne : ds ≠ []) (hkey : ∀ d ∈ ds, (pyLookup d "text").isSome)
    (hts : ts ≠ []) :
    (∃ dlast t, ds.getLast? = some dlast ∧ pyLookup dlast "text" = some t ∧
      build_intent dn (ds.map PhraseRow.mapping) = .ok ⟨dn, [("text", t)]⟩) ∧
    build_intent dn (ts.map PhraseRow.str) =
      .error (.typeError "string indices must be integers") := by
  constructor
  · obtain ⟨dlast, t, hl, hp, hrun⟩ :=
      buildTps_go ds [] hkey (Or.inl rfl) hne
    exact ⟨dlast, t, hl, hp, by simp [build_intent, hrun]⟩
  · cases ts with
    | nil => exact absurd rfl hts
    | cons s rest => simp [build_intent, buildTps, rowTextItem]

/-- Witness for C10: two mapping rows keep only the second's text; a list of
strings raises. -/
theorem build_intent_last_text_wins_witness :
    ([[("text", "hi")], [("text", "bye")]] :
        List (List (String × String))) ≠ [] ∧
    (∀ d ∈ ([[("text", "hi")], [("text", "bye")]] :
        List (List (String × String))), (pyLookup d "text").isSome) ∧
    (["a"] : List String) ≠ [] ∧
    ((∃ dlast t,
      ([[("text", "hi")], [("text", "bye")]] :
        List (List (String × String))).getLast? = some dlast ∧
      pyLookup dlast "text" = some t ∧
      build_intent "order"
        (([[("text", "hi")], [("text", "bye")]] :
          List (List (String × String))).map PhraseRow.mapping) =
        .ok ⟨"order", [("text", t)]⟩) ∧
    build_intent "order" ((["a"] : List String).map PhraseRow.str) =
      .error (.typeError "string indices must be integers")) :=
  ⟨by decide, by decide, by decide,
    build_intent_last_text_wins "order" [[("text", "hi")], [("text", "bye")]]
      ["a"] (by decide) (by decide) (by decide)⟩

end Dfcx
